import Mathlib

/-!
Shallow embedding of the `task_card_generator` package (web_app.py,
printer.py, html_generator.py): the POST /print handler pipeline, the
grayscale normalization step, the rendering backend fallback, the print
dispatcher, the in-memory history deque, and the POST /reprint handler.
-/

namespace TaskCardGenerator

/-- Python `str.strip()`: remove leading and trailing whitespace. -/
def pyStrip (s : String) : String :=
  String.mk
    (((s.data.dropWhile Char.isWhitespace).reverse.dropWhile Char.isWhitespace).reverse)

/-- An RGB pixel of a decoded raster image (PIL pixel, one byte per channel). -/
structure Pixel where
  r : Nat
  g : Nat
  b : Nat
deriving DecidableEq, Repr

/-- A decoded RGB raster image (PIL Image): width, height and rows of pixels. -/
structure Img where
  width : Nat
  height : Nat
  rows : List (List Pixel)
deriving DecidableEq, Repr

/-- A decoded single-channel 8-bit grayscale image (PIL mode "L"). -/
structure GrayImg where
  width : Nat
  height : Nat
  rows : List (List Nat)
deriving DecidableEq, Repr

/-- PIL `Image.convert("L")` per-pixel luma, ITU-R 601-2:
`L = R * 299/1000 + G * 587/1000 + B * 114/1000` (integer division). -/
def toGray (p : Pixel) : Nat :=
  (299 * p.r + 587 * p.g + 114 * p.b) / 1000

/-- PIL `im.convert("L")` on an RGB image: same dimensions, luma pixels. -/
def convertL (im : Img) : GrayImg :=
  { width := im.width, height := im.height
    rows := im.rows.map (fun row => row.map toGray) }

/-- The byte strings flowing through the pipeline, classified by whether
`PIL.Image.open` can decode them: an encoded RGB image, an encoded
grayscale image, or bytes that fail to decode (e.g. the test suite's
`b"fakeimagebytes"`). -/
inductive ImgBytes where
  | rgb (im : Img)
  | gray (im : GrayImg)
  | undecodable (data : List Nat)
deriving DecidableEq, Repr

/-- Pixel width of the encoded image, when the bytes decode at all. -/
def ImgBytes.widthOf : ImgBytes → Option Nat
  | .rgb im => some im.width
  | .gray im => some im.width
  | .undecodable _ => none

/-- The fixed dot-column width the renderer is configured for:
`'width': 576` and `'crop-w': 576` in html_generator.py's imgkit options,
and `width: 576px` on the HTML body. -/
def WKHTMLTOIMAGE_WIDTH : Nat := 576

/-- The grayscale-conversion block of `handle_print` (web_app.py lines
537-553): `Image.open` the bytes, `convert("L")`, re-encode as PNG, and
build a base64 data-URI preview; if decoding raises, the original bytes
are kept unchanged and the preview falls back to a base64 of them.
Returns the new `image_bytes` and the preview (`None` never actually
arises since base64 of bytes cannot fail). -/
def grayscaleStep : ImgBytes → ImgBytes × Option ImgBytes
  | .rgb im => (.gray (convertL im), some (.gray (convertL im)))
  | .gray im => (.gray im, some (.gray im))
  | .undecodable d => (.undecodable d, some (.undecodable d))

/-- Outcome of the escpos transport write (`printer.image` + `printer.cut`
in printer.py): either the write succeeds or it raises with a message. -/
inductive Transport where
  | writeOk
  | writeFails (msg : String)
deriving DecidableEq, Repr

/-- Python truthiness of `image_bytes` in `if not image_bytes:`:
`None` and `b""` are falsy, any decodable encoding is non-empty. -/
def bytesTruthy : Option ImgBytes → Bool
  | none => false
  | some (.undecodable d) => !d.isEmpty
  | some (.rgb _) => true
  | some (.gray _) => true

/-- printer.py `print_to_thermal_printer`: raises `ValueError("No image
provided to print.")` when `not image_bytes`; otherwise opens the image
and writes it to the transport followed by the cut command, propagating
any transport exception to the caller (there is no retry and no handler). -/
def print_to_thermal_printer (image_bytes : Option ImgBytes) (t : Transport) :
    Except String Unit :=
  if !bytesTruthy image_bytes then
    .error "No image provided to print."
  else
    match t with
    | .writeOk => .ok ()
    | .writeFails msg => .error msg

/-- Outcome of one rendering backend (`html_to_image_imgkit` or
`html_to_image_selenium`): the library import failed, the conversion
raised (both logged and turned into `(None, None)`), or it produced image
bytes with an optional retained file path. -/
inductive BackendOutcome where
  | unavailable
  | crashed
  | ok (bytes : ImgBytes) (path : Option String)
deriving DecidableEq, Repr

/-- The `(path, bytes)` pair a backend function returns: `(None, None)`
when unavailable or on exception, `(path?, bytes)` on success. -/
def backendRun : BackendOutcome → Option String × Option ImgBytes
  | .unavailable => (none, none)
  | .crashed => (none, none)
  | .ok b p => (p, some b)

/-- html_generator.py `create_task_image`: try imgkit first; if it yields
no bytes, fall back to Selenium; return whatever the surviving backend
produced (possibly `(None, None)` when both failed). -/
def create_task_image (imgkit selenium : BackendOutcome) :
    Option String × Option ImgBytes :=
  let r := backendRun imgkit
  if r.2 = none then backendRun selenium else r

/-- The priority field of a /print request as it reaches
`int(priority_raw)`: absent/falsy (defaulted to `"2"` by
`payload.get("priority") or "2"`), a string parsing to the integer `n`,
or a non-integer string on which `int()` raises. -/
inductive PriorityField where
  | absent
  | intLike (n : Int)
  | notIntLike
deriving DecidableEq, Repr

/-- web_app.py lines 510-515: `int(priority_raw)` with fallback to 2 on
exception, then coercion to 2 when outside `(1, 2, 3)`. -/
def parsePriority : PriorityField → Int
  | .absent => 2
  | .notIntLike => 2
  | .intLike n => if n = 1 ∨ n = 2 ∨ n = 3 then n else 2

/-- A form-upload attachment: `await attachment.read()` either yields the
bytes or raises (the handler then falls back to no attachment). -/
inductive AttachmentUpload where
  | readable (data : List Nat)
  | unreadable
deriving DecidableEq, Repr

/-- Body encoding of the /print request, selected by the content-type
header check `"application/json" in content_type`. -/
inductive CType where
  | json
  | form
deriving DecidableEq, Repr

/-- A POST /print request as the handler sees it. `image_only` models an
extra field a client may send; the handler never reads it. -/
structure PrintRequest where
  contentType : CType
  name : Option String
  priority : PriorityField
  due_date : Option String
  operator_signature : Option String
  attachment : Option AttachmentUpload
  image_only : Option String
deriving DecidableEq, Repr

/-- The external effects of one /print execution: what each rendering
backend does, what the printer transport does, and whether the
`_history.appendleft` call raises (its exception is swallowed by
`except Exception: pass`). -/
structure Env where
  imgkit : BackendOutcome
  selenium : BackendOutcome
  transport : Transport
  historyAppendRaises : Bool
deriving DecidableEq, Repr

/-- One entry of the `_history` deque (web_app.py lines 566-574). -/
structure HistoryEntry where
  id : Nat
  name : String
  priority : Int
  due_date : String
  preview : Option ImgBytes
  image_bytes : Option ImgBytes
  operator_signature : String
deriving DecidableEq, Repr

/-- The id-less payload of a history append; the id is computed from the
current deque contents. -/
structure EntryData where
  name : String
  priority : Int
  due_date : String
  preview : Option ImgBytes
  image_bytes : Option ImgBytes
  operator_signature : String
deriving DecidableEq, Repr

/-- `HISTORY_LIMIT = 10`, the `maxlen` of the `_history` deque. -/
def HISTORY_LIMIT : Nat := 10

/-- The id expression of the append (web_app.py line 567):
`len(_history) + 1 if not _history else _history[0]["id"] + 1`
(`len` of the empty deque is 0, so the empty case yields 1). -/
def nextId : List HistoryEntry → Nat
  | [] => 0 + 1
  | e :: _ => e.id + 1

/-- `_history.appendleft({...})` on a `deque(maxlen=HISTORY_LIMIT)`:
the new entry goes to the front and the oldest entry (at the back) is
dropped once the deque is full. The list is newest-first like the deque. -/
def appendHistory (hist : List HistoryEntry) (d : EntryData) : List HistoryEntry :=
  List.take HISTORY_LIMIT
    ({ id := nextId hist, name := d.name, priority := d.priority,
       due_date := d.due_date, preview := d.preview,
       image_bytes := d.image_bytes,
       operator_signature := d.operator_signature } :: hist)

/-- The `task_obj = SimpleNamespace(...)` handed to the renderer. -/
structure TaskObj where
  name : String
  priority : Int
  due_date : String
  operator_signature : String
  attachment_bytes : Option (List Nat)
deriving DecidableEq, Repr

/-- The `task` object echoed in the success JSON (no attachment bytes). -/
structure TaskEcho where
  name : String
  priority : Int
  due_date : String
  operator_signature : String
deriving DecidableEq, Repr

/-- A JSONResponse of the /print handler: HTTP status plus the JSON
fields the handler sets. -/
structure PrintResponse where
  status : Nat
  success : Bool
  error : Option String
  task : Option TaskEcho
  preview : Option ImgBytes
deriving DecidableEq, Repr

/-- The observable outcome of one `handle_print` execution: the HTTP
response, the `_history` deque afterwards, the task object that was built
(none when validation failed before building it), and whether the
renderer and the printer were invoked at all. -/
structure HandleResult where
  response : PrintResponse
  history : List HistoryEntry
  taskBuilt : Option TaskObj
  rendered : Bool
  printed : Bool
deriving DecidableEq, Repr

/-- The 500 error message of the render-failure branch. -/
def renderFailMsg : String :=
  "Failed to render ticket image. Ensure wkhtmltoimage or Selenium+Chrome are installed."

/-- The attachment bytes `handle_print` ends up with: JSON bodies set
`attachment_bytes = None` unconditionally; form bodies read the upload,
degrading to `None` when the field is absent or the read raises. -/
def parsedAttachment (req : PrintRequest) : Option (List Nat) :=
  match req.contentType with
  | .json => none
  | .form =>
    match req.attachment with
    | none => none
    | some (.readable d) => some d
    | some .unreadable => none

/-- The `task_obj = SimpleNamespace(...)` built from the parsed fields. -/
def builtTask (req : PrintRequest) : TaskObj :=
  { name := pyStrip (req.name.getD "")
    priority := parsePriority req.priority
    due_date := pyStrip (req.due_date.getD "")
    operator_signature := pyStrip (req.operator_signature.getD "")
    attachment_bytes := parsedAttachment req }

/-- The `task` JSON echoed on success: the task fields minus attachment. -/
def echoOf (t : TaskObj) : TaskEcho :=
  { name := t.name, priority := t.priority, due_date := t.due_date,
    operator_signature := t.operator_signature }

/-- The history payload appended on success. -/
def entryOf (t : TaskObj) (image_bytes preview : Option ImgBytes) : EntryData :=
  { name := t.name, priority := t.priority, due_date := t.due_date,
    preview := preview, image_bytes := image_bytes,
    operator_signature := t.operator_signature }

/-- The 400 outcome of the name/due-date validation: returned before the
task object is built, before rendering and before printing. -/
def validationFailResult (hist : List HistoryEntry) : HandleResult :=
  { response := { status := 400, success := false,
                  error := some "Missing name or due date.",
                  task := none, preview := none },
    history := hist, taskBuilt := none, rendered := false, printed := false }

/-- The 500 outcome when `create_task_image` came back `(None, None)`. -/
def renderFailResult (hist : List HistoryEntry) (t : TaskObj) : HandleResult :=
  { response := { status := 500, success := false,
                  error := some renderFailMsg, task := none, preview := none },
    history := hist, taskBuilt := some t, rendered := true, printed := false }

/-- The 500 outcome when `print_to_thermal_printer` raised with message `e`. -/
def printFailResult (hist : List HistoryEntry) (t : TaskObj) (e : String) :
    HandleResult :=
  { response := { status := 500, success := false,
                  error := some ("Failed to print: " ++ e),
                  task := none, preview := none },
    history := hist, taskBuilt := some t, rendered := true, printed := true }

/-- The 200 success outcome with the post-append history. -/
def successResult (hist : List HistoryEntry) (t : TaskObj)
    (preview : Option ImgBytes) : HandleResult :=
  { response := { status := 200, success := true, error := none,
                  task := some (echoOf t), preview := preview },
    history := hist, taskBuilt := some t, rendered := true, printed := true }

/-- The `(image_bytes, preview_data)` pair after the grayscale block,
as a function of the rendered bytes (`None` stays `None` because the
block is guarded by `if image_bytes is not None`). -/
def normalizedOf (rendered : Option ImgBytes) :
    Option ImgBytes × Option ImgBytes :=
  match rendered with
  | none => (none, none)
  | some b => (some (grayscaleStep b).1, (grayscaleStep b).2)

/-- web_app.py `handle_print` (lines 475-588): parse fields per content
type (JSON bodies never carry attachment bytes; form attachments whose
read raises degrade to none), validate name and due date (400), coerce
priority, render via `create_task_image` (500 with hint when both
backends fail), grayscale-normalize the bytes, print (500 with the
underlying message on failure), append to history (the append sits in a
try with a bare pass, so an exception there is swallowed), and return
the success JSON. -/
def handle_print (req : PrintRequest) (env : Env) (hist : List HistoryEntry) :
    HandleResult :=
  if pyStrip (req.name.getD "") = "" ∨ pyStrip (req.due_date.getD "") = "" then
    validationFailResult hist
  else if (create_task_image env.imgkit env.selenium).1 = none ∧
      (create_task_image env.imgkit env.selenium).2 = none then
    renderFailResult hist (builtTask req)
  else
    match print_to_thermal_printer
        (normalizedOf (create_task_image env.imgkit env.selenium).2).1
        env.transport with
    | .error e => printFailResult hist (builtTask req) e
    | .ok _ =>
      successResult
        (if env.historyAppendRaises then hist
         else appendHistory hist
           (entryOf (builtTask req)
             (normalizedOf (create_task_image env.imgkit env.selenium).2).1
             (normalizedOf (create_task_image env.imgkit env.selenium).2).2))
        (builtTask req)
        (normalizedOf (create_task_image env.imgkit env.selenium).2).2

/-- A /reprint JSONResponse. -/
structure ReprintResponse where
  status : Nat
  success : Bool
  error : Option String
deriving DecidableEq, Repr

/-- web_app.py `reprint` (lines 606-621): look the entry up by the
stringified id (`str(h["id"]) == target_id`), 404 when absent, otherwise
reprint the cached bytes (500 on printer failure). The handler never
mutates `_history`; the returned list is the deque afterwards. -/
def reprint (hist : List HistoryEntry) (target_id : String) (t : Transport) :
    ReprintResponse × List HistoryEntry :=
  match hist.find? (fun h => toString h.id = target_id) with
  | none => ({ status := 404, success := false, error := some "Not found" }, hist)
  | some entry =>
    match print_to_thermal_printer entry.image_bytes t with
    | .error e =>
      ({ status := 500, success := false,
         error := some ("Failed to reprint: " ++ e) }, hist)
    | .ok _ => ({ status := 200, success := true, error := none }, hist)

/-- Largest id currently in the deque (0 for the empty deque). -/
def maxIdOf (hist : List HistoryEntry) : Nat :=
  (hist.map (fun e => e.id)).foldr max 0

/-- The `_history` states reachable in the process: the deque starts
empty and is only ever mutated by the appendleft in `handle_print`. -/
inductive ReachableHistory : List HistoryEntry → Prop where
  | empty : ReachableHistory []
  | append (h : List HistoryEntry) (d : EntryData) :
      ReachableHistory h → ReachableHistory (appendHistory h d)

/-- A small decodable RGB render result used as a concrete fixture. -/
def imgSmall : Img :=
  { width := 2, height := 1, rows := [[⟨10, 20, 30⟩, ⟨200, 100, 50⟩]] }

/-- A 100-pixel-wide render result (narrower than the printer width). -/
def imgW100 : Img :=
  { width := 100, height := 1, rows := [List.replicate 100 ⟨0, 0, 0⟩] }

/-- A zero-dimension image (PIL represents 0x0 images without error). -/
def imgZero : Img := { width := 0, height := 0, rows := [] }

/-- A well-formed form-encoded /print request fixture. -/
def reqOk : PrintRequest :=
  { contentType := .form, name := some "Test task", priority := .intLike 2,
    due_date := some "2026-02-08", operator_signature := some "QA",
    attachment := none, image_only := none }

/-- An environment where imgkit renders `imgSmall` and printing succeeds. -/
def envOk : Env :=
  { imgkit := .ok (.rgb imgSmall) none, selenium := .unavailable,
    transport := .writeOk, historyAppendRaises := false }

/-- An environment where imgkit renders the 100-pixel-wide image. -/
def envW100 : Env :=
  { imgkit := .ok (.rgb imgW100) none, selenium := .unavailable,
    transport := .writeOk, historyAppendRaises := false }

/-- A concrete history payload fixture. -/
def entry0 : EntryData :=
  { name := "Test task", priority := 2, due_date := "2026-02-08",
    preview := none, image_bytes := none, operator_signature := "QA" }

/-- A concrete cached history entry with id 1. -/
def histEntry1 : HistoryEntry :=
  { id := 1, name := "Test task", priority := 2, due_date := "2026-02-08",
    preview := none, image_bytes := some (.gray (convertL imgSmall)),
    operator_signature := "QA" }

/-- A request in the spec's "image-only" style: an `image_only` field and
an attachment, but no name and no due date. -/
def reqImageOnly : PrintRequest :=
  { contentType := .form, name := none, priority := .absent,
    due_date := none, operator_signature := none,
    attachment := some (.readable [7, 7, 7]), image_only := some "true" }

/-- A JSON-encoded request that mentions an attachment in its payload. -/
def reqJson : PrintRequest :=
  { reqOk with contentType := .json, attachment := some (.readable [1, 2, 3]) }

/-- A request whose priority string is an integer outside 1..3. -/
def reqBadPriority : PrintRequest :=
  { reqOk with priority := .intLike 7 }

/-- Helper: blank or missing optional strings strip to the empty string. -/
theorem pyStrip_blank (o : Option String) (h : o = none ∨ o = some "") :
    pyStrip (o.getD "") = "" := by
  rcases h with rfl | rfl <;> rfl

/-- Helper: the validation branch fires on a blank name or due date. -/
theorem handle_print_400 (req : PrintRequest) (env : Env)
    (hist : List HistoryEntry)
    (h : pyStrip (req.name.getD "") = "" ∨ pyStrip (req.due_date.getD "") = "") :
    handle_print req env hist = validationFailResult hist := by
  rcases h with h | h <;> simp [handle_print, h]

/-- Helper: the four possible outcomes of one `handle_print` execution. -/
theorem handle_print_shape (req : PrintRequest) (env : Env)
    (hist : List HistoryEntry) :
    (handle_print req env hist = validationFailResult hist ∧
      (pyStrip (req.name.getD "") = "" ∨ pyStrip (req.due_date.getD "") = "")) ∨
    handle_print req env hist = renderFailResult hist (builtTask req) ∨
    (∃ e, handle_print req env hist = printFailResult hist (builtTask req) e) ∨
    (∃ ib pv, handle_print req env hist =
      successResult
        (if env.historyAppendRaises then hist
         else appendHistory hist (entryOf (builtTask req) ib pv))
        (builtTask req) pv) := by
  by_cases h1 : pyStrip (req.name.getD "") = "" ∨ pyStrip (req.due_date.getD "") = ""
  · exact Or.inl ⟨handle_print_400 req env hist h1, h1⟩
  · right
    unfold handle_print
    rw [if_neg h1]
    by_cases h2 : (create_task_image env.imgkit env.selenium).1 = none ∧
        (create_task_image env.imgkit env.selenium).2 = none
    · left
      simp [h2]
    · right
      rw [if_neg h2]
      rcases hpr : print_to_thermal_printer
          (normalizedOf (create_task_image env.imgkit env.selenium).2).1
          env.transport with e | u
      · exact Or.inl ⟨e, rfl⟩
      · exact Or.inr ⟨(normalizedOf (create_task_image env.imgkit env.selenium).2).1,
          (normalizedOf (create_task_image env.imgkit env.selenium).2).2, rfl⟩

/-- Helper: the new history is the old one, or one appendleft on it. -/
theorem handle_print_history_cases (req : PrintRequest) (env : Env)
    (hist : List HistoryEntry) :
    (handle_print req env hist).history = hist ∨
    ∃ d, (handle_print req env hist).history = appendHistory hist d ∧
      d.priority = parsePriority req.priority := by
  rcases handle_print_shape req env hist with ⟨h, _⟩ | h | ⟨e, h⟩ | ⟨ib, pv, h⟩
  · left; rw [h]; rfl
  · left; rw [h]; rfl
  · left; rw [h]; rfl
  · by_cases hf : env.historyAppendRaises
    · left; rw [h]; simp [successResult, hf]
    · right
      refine ⟨entryOf (builtTask req) ib pv, ?_, rfl⟩
      rw [h]; simp [successResult, hf]

/-- Helper: when the history append raises, the deque stays unchanged. -/
theorem handle_print_flagged_history (req : PrintRequest) (env : Env)
    (hist : List HistoryEntry) :
    (handle_print req { env with historyAppendRaises := true } hist).history
      = hist := by
  rcases handle_print_shape req { env with historyAppendRaises := true } hist
    with ⟨h, _⟩ | h | ⟨e, h⟩ | ⟨ib, pv, h⟩ <;> rw [h] <;>
    simp [validationFailResult, renderFailResult, printFailResult, successResult]

/-- Helper: the HTTP response never depends on the history-append raise. -/
theorem handle_print_flag_response (req : PrintRequest) (env : Env)
    (hist : List HistoryEntry) (b : Bool) :
    (handle_print req { env with historyAppendRaises := b } hist).response =
      (handle_print req env hist).response := by
  rcases env with ⟨ik, sel, tr, flag⟩
  show (handle_print req ⟨ik, sel, tr, b⟩ hist).response =
    (handle_print req ⟨ik, sel, tr, flag⟩ hist).response
  unfold handle_print
  dsimp only
  by_cases h1 : pyStrip (req.name.getD "") = "" ∨ pyStrip (req.due_date.getD "") = ""
  · simp only [if_pos h1]
  · simp only [if_neg h1]
    by_cases h2 : (create_task_image ik sel).1 = none ∧ (create_task_image ik sel).2 = none
    · simp only [if_pos h2]
    · simp only [if_neg h2]
      rcases hpr : print_to_thermal_printer
          (normalizedOf (create_task_image ik sel).2).1 tr with e | u <;> rfl

/-- Helper: an attachment whose read raises degrades to no attachment. -/
theorem handle_print_attachment_unreadable (req : PrintRequest) (env : Env)
    (hist : List HistoryEntry) :
    handle_print { req with attachment := some .unreadable } env hist =
      handle_print { req with attachment := none } env hist := by
  rcases req with ⟨ct, n, p, dd, os, at0, io⟩
  cases ct <;> rfl

/-- Helper: whenever a task object was built, it is `builtTask req`. -/
theorem handle_print_taskBuilt (req : PrintRequest) (env : Env)
    (hist : List HistoryEntry) :
    ∀ t, (handle_print req env hist).taskBuilt = some t → t = builtTask req := by
  intro t ht
  rcases handle_print_shape req env hist with ⟨h, _⟩ | h | ⟨e, h⟩ | ⟨ib, pv, h⟩ <;>
    rw [h] at ht
  · simp [validationFailResult] at ht
  · simp [renderFailResult] at ht; exact ht.symm
  · simp [printFailResult] at ht; exact ht.symm
  · simp [successResult] at ht; exact ht.symm

/-- Helper: members of a `foldr max` list are bounded by the fold. -/
theorem le_foldr_max (n : Nat) (l : List Nat) (h : n ∈ l) :
    n ≤ l.foldr max 0 := by
  induction l with
  | nil => cases h
  | cons a t ih =>
    rcases List.mem_cons.mp h with rfl | h
    · exact le_max_left _ _
    · exact le_trans (ih h) (le_max_right _ _)

/-- Helper: `foldr max 0` is below any upper bound of the list. -/
theorem foldr_max_le (l : List Nat) (b : Nat) (h : ∀ x ∈ l, x ≤ b) :
    l.foldr max 0 ≤ b := by
  induction l with
  | nil => exact Nat.zero_le b
  | cons a t ih =>
    exact max_le (h a (List.mem_cons_self a t))
      (ih fun x hx => h x (List.mem_cons_of_mem a hx))

/-- Helper: every cached id is at most the maximum id. -/
theorem mem_id_le_maxIdOf (e : HistoryEntry) (h : List HistoryEntry)
    (he : e ∈ h) : e.id ≤ maxIdOf h :=
  le_foldr_max _ _ (List.mem_map_of_mem _ he)

/-- Helper: `maxIdOf` is below any upper bound of the cached ids. -/
theorem maxIdOf_le (h : List HistoryEntry) (b : Nat)
    (hb : ∀ e ∈ h, e.id ≤ b) : maxIdOf h ≤ b := by
  apply foldr_max_le
  intro x hx
  rcases List.mem_map.mp hx with ⟨e, he, rfl⟩
  exact hb e he

/-- Helper: every reachable `_history` state is bounded by the deque
capacity, strictly decreasing in ids front to back, and its next id is
one more than its maximum id. -/
theorem reachable_invariant (h : List HistoryEntry) (hr : ReachableHistory h) :
    h.length ≤ HISTORY_LIMIT ∧
    List.Pairwise (fun a b => b.id < a.id) h ∧
    nextId h = maxIdOf h + 1 := by
  induction hr with
  | empty => exact ⟨by simp [HISTORY_LIMIT], List.Pairwise.nil, rfl⟩
  | append h d hprev ih =>
    obtain ⟨hlen, hpw, hid⟩ := ih
    have hlt : ∀ e ∈ h, e.id < nextId h := by
      intro e he
      have := mem_id_le_maxIdOf e h he
      omega
    have happ : appendHistory h d =
        { id := nextId h, name := d.name, priority := d.priority,
          due_date := d.due_date, preview := d.preview,
          image_bytes := d.image_bytes,
          operator_signature := d.operator_signature } :: List.take 9 h := rfl
    have hpw2 : List.Pairwise (fun a b => b.id < a.id)
        ({ id := nextId h, name := d.name, priority := d.priority,
           due_date := d.due_date, preview := d.preview,
           image_bytes := d.image_bytes,
           operator_signature := d.operator_signature } :: List.take 9 h) := by
      constructor
      · intro e he
        exact hlt e (List.take_subset _ _ he)
      · exact List.Pairwise.sublist (List.take_sublist _ _) hpw
    refine ⟨?_, ?_, ?_⟩
    · rw [show appendHistory h d = List.take HISTORY_LIMIT (_ :: h) from rfl,
        List.length_take]
      exact Nat.min_le_left _ _
    · rw [happ]; exact hpw2
    · rw [happ]
      have hmax : maxIdOf (List.take 9 h) ≤ nextId h := by
        apply maxIdOf_le
        intro e he
        exact le_of_lt (hlt e (List.take_subset _ _ he))
      show nextId h + 1 = maxIdOf _ + 1
      have hm : maxIdOf
          ({ id := nextId h, name := d.name, priority := d.priority,
             due_date := d.due_date, preview := d.preview,
             image_bytes := d.image_bytes,
             operator_signature := d.operator_signature } :: List.take 9 h)
          = max (nextId h) (maxIdOf (List.take 9 h)) := by
        simp [maxIdOf]
      rw [hm, Nat.max_eq_left hmax]

/-- C1 counterexample: the normalization step of POST /print does not
resize to the configured 576-pixel target width and rejects nothing: a
100-pixel-wide rendered image passes through the whole handler
successfully and its normalized bytes are still 100 pixels wide, and a
zero-dimension image is converted without error instead of rejected. -/
theorem normalization_not_resized_cex :
    ImgBytes.widthOf (grayscaleStep (ImgBytes.rgb imgW100)).1
      ≠ some WKHTMLTOIMAGE_WIDTH ∧
    (handle_print reqOk envW100 []).response.success = true ∧
    ((handle_print reqOk envW100 []).history.map
      (fun e => e.image_bytes.map ImgBytes.widthOf)) = [some (some 100)] ∧
    (grayscaleStep (ImgBytes.rgb imgZero)).1 = ImgBytes.gray (convertL imgZero) := by
  decide

/-- C1 (amended): the normalization step converts every decodable
rendered image to 8-bit grayscale (ITU-R 601-2 luma, each channel below
256 giving a value below 256) while preserving width and height exactly;
it performs no resizing and no padding, and it rejects nothing:
undecodable bytes pass through unchanged. -/
theorem normalization_grayscale_only (im : Img) (d : List Nat) (p : Pixel) :
    (grayscaleStep (ImgBytes.rgb im)).1 = ImgBytes.gray (convertL im) ∧
    (convertL im).width = im.width ∧
    (convertL im).height = im.height ∧
    (grayscaleStep (ImgBytes.undecodable d)).1 = ImgBytes.undecodable d ∧
    (p.r ≤ 255 → p.g ≤ 255 → p.b ≤ 255 → toGray p ≤ 255) := by
  refine ⟨rfl, rfl, rfl, rfl, ?_⟩
  intro hr hg hb
  have hnum : 299 * p.r + 587 * p.g + 114 * p.b ≤ 255000 := by omega
  calc toGray p = (299 * p.r + 587 * p.g + 114 * p.b) / 1000 := rfl
    _ ≤ 255000 / 1000 := Nat.div_le_div_right hnum
    _ = 255 := by norm_num

/-- C1 witness: a white pixel maps to the 8-bit grayscale maximum. -/
theorem normalization_grayscale_only_w :
    toGray { r := 255, g := 255, b := 255 } ≤ 255 :=
  (normalization_grayscale_only imgSmall [7] { r := 255, g := 255, b := 255 }).2.2.2.2
    (by decide) (by decide) (by decide)

/-- C2: every reachable history state has at most `HISTORY_LIMIT` (10)
entries with strictly decreasing (hence unique, increasing over time)
ids front to back; the next appended entry always receives id
`maxIdOf + 1` (which is 1 on the empty cache, since `maxIdOf [] = 0`),
the deque stays within capacity after the append, and every POST /print
execution maps reachable history states to reachable history states. -/
theorem history_capacity_and_ids (h : List HistoryEntry)
    (hr : ReachableHistory h) :
    h.length ≤ HISTORY_LIMIT ∧
    List.Pairwise (fun a b => b.id < a.id) h ∧
    nextId h = maxIdOf h + 1 ∧
    (∀ d : EntryData, (appendHistory h d).length ≤ HISTORY_LIMIT ∧
      ∃ e rest, appendHistory h d = e :: rest ∧ e.id = maxIdOf h + 1) ∧
    ∀ req env, ReachableHistory (handle_print req env h).history := by
  obtain ⟨h1, h2, h3⟩ := reachable_invariant h hr
  refine ⟨h1, h2, h3, ?_, ?_⟩
  · intro d
    constructor
    · rw [show appendHistory h d = List.take HISTORY_LIMIT (_ :: h) from rfl,
        List.length_take]
      exact Nat.min_le_left _ _
    · exact ⟨_, List.take 9 h, rfl, h3⟩
  · intro req env
    rcases handle_print_history_cases req env h with hh | ⟨d, hh, _⟩
    · rw [hh]; exact hr
    · rw [hh]; exact ReachableHistory.append h d hr

/-- C2 witness: the invariant at the state after one append from empty. -/
theorem history_capacity_and_ids_w :
    (appendHistory [] entry0).length ≤ HISTORY_LIMIT :=
  (history_capacity_and_ids (appendHistory [] entry0)
    (ReachableHistory.append [] entry0 ReachableHistory.empty)).1

/-- C3: POST /reprint with an id matching no cached entry returns 404
with success false and the "Not found" error, and leaves the history
cache exactly as it was. -/
theorem reprint_unknown_id_404 (hist : List HistoryEntry) (tid : String)
    (t : Transport) (h : ∀ e ∈ hist, toString e.id ≠ tid) :
    (reprint hist tid t).1.status = 404 ∧
    (reprint hist tid t).1.success = false ∧
    (reprint hist tid t).1.error = some "Not found" ∧
    (reprint hist tid t).2 = hist := by
  have hf : hist.find? (fun e => toString e.id = tid) = none := by
    rw [List.find?_eq_none]
    intro x hx
    simpa using h x hx
  unfold reprint
  rw [hf]
  exact ⟨rfl, rfl, rfl, rfl⟩

/-- C3 witness: reprinting id "2" against a cache holding only id 1. -/
theorem reprint_unknown_id_404_w :
    (reprint [histEntry1] "2" Transport.writeOk).1.status = 404 :=
  (reprint_unknown_id_404 [histEntry1] "2" Transport.writeOk (by decide)).1

/-- C4: a /print request whose name or due date is missing or empty gets
the 400 validation response with success false, without rendering,
printing, or touching history (the full result is the validation-fail
record, whose rendered and printed flags are false). -/
theorem missing_fields_returns_400 (req : PrintRequest) (env : Env)
    (hist : List HistoryEntry)
    (h : req.name = none ∨ req.name = some "" ∨
      req.due_date = none ∨ req.due_date = some "") :
    handle_print req env hist = validationFailResult hist := by
  apply handle_print_400
  rcases h with h | h | h | h
  · exact Or.inl (pyStrip_blank _ (Or.inl h))
  · exact Or.inl (pyStrip_blank _ (Or.inr h))
  · exact Or.inr (pyStrip_blank _ (Or.inl h))
  · exact Or.inr (pyStrip_blank _ (Or.inr h))

/-- C4 witness: the test suite's `{name:"", due_date:""}` JSON request. -/
theorem missing_fields_returns_400_w :
    handle_print
      { reqOk with contentType := CType.json, name := some "", due_date := some "" }
      envOk [] = validationFailResult [] :=
  missing_fields_returns_400 _ _ _ (Or.inr (Or.inl rfl))

/-- C5: the print dispatcher errors whenever given no bytes (None or
empty), a transport-write failure propagates its message unchanged (no
retry path exists in the definition), and in that case POST /print
answers 500 with success false carrying the underlying message, leaving
history untouched. -/
theorem print_dispatcher_fails_loudly (t : Transport) (b : Option ImgBytes)
    (msg : String) (req : PrintRequest) (env : Env) (hist : List HistoryEntry)
    (im : Img) (pth : Option String) :
    print_to_thermal_printer none t = Except.error "No image provided to print." ∧
    (bytesTruthy b = false →
      print_to_thermal_printer b t = Except.error "No image provided to print.") ∧
    (bytesTruthy b = true →
      print_to_thermal_printer b (Transport.writeFails msg) = Except.error msg) ∧
    (pyStrip (req.name.getD "") ≠ "" → pyStrip (req.due_date.getD "") ≠ "" →
      env.imgkit = BackendOutcome.ok (ImgBytes.rgb im) pth →
      env.transport = Transport.writeFails msg →
      (handle_print req env hist).response.status = 500 ∧
      (handle_print req env hist).response.success = false ∧
      (handle_print req env hist).response.error
        = some ("Failed to print: " ++ msg) ∧
      (handle_print req env hist).history = hist) := by
  refine ⟨rfl, ?_, ?_, ?_⟩
  · intro hb; simp [print_to_thermal_printer, hb]
  · intro hb; simp [print_to_thermal_printer, hb]
  · intro hn hd hik htr
    have hcond : ¬(pyStrip (req.name.getD "") = "" ∨
        pyStrip (req.due_date.getD "") = "") := by simp [hn, hd]
    have hrender : create_task_image env.imgkit env.selenium
        = (pth, some (ImgBytes.rgb im)) := by
      rw [hik]; simp [create_task_image, backendRun]
    have hprint : print_to_thermal_printer
        (normalizedOf (create_task_image env.imgkit env.selenium).2).1
        env.transport = Except.error msg := by
      rw [hrender, htr]; rfl
    unfold handle_print
    rw [if_neg hcond, if_neg (by rw [hrender]; simp), hprint]
    exact ⟨rfl, rfl, rfl, rfl⟩

/-- C5 witness: a failing transport surfaces its message through /print. -/
theorem print_dispatcher_fails_loudly_w :
    (handle_print reqOk { envOk with transport := Transport.writeFails "boom" }
      []).response.error = some ("Failed to print: " ++ "boom") :=
  (print_dispatcher_fails_loudly (Transport.writeFails "boom") none "boom" reqOk
    { envOk with transport := Transport.writeFails "boom" } [] imgSmall none).2.2.2
    (by decide) (by decide) rfl rfl |>.2.2.1

/-- C6: when both rendering backends are unavailable or crash,
`create_task_image` returns the null pair `(None, None)` (it is a total
function, so it returns rather than raising), and POST /print then
answers 500 with success false and the remediation hint, without having
printed and without touching history. -/
theorem render_failure_returns_500 (i s : BackendOutcome) (req : PrintRequest)
    (env : Env) (hist : List HistoryEntry)
    (hi : i = BackendOutcome.unavailable ∨ i = BackendOutcome.crashed)
    (hs : s = BackendOutcome.unavailable ∨ s = BackendOutcome.crashed) :
    create_task_image i s = (none, none) ∧
    (env.imgkit = i → env.selenium = s →
      pyStrip (req.name.getD "") ≠ "" → pyStrip (req.due_date.getD "") ≠ "" →
      (handle_print req env hist).response.status = 500 ∧
      (handle_print req env hist).response.success = false ∧
      (handle_print req env hist).response.error = some renderFailMsg ∧
      (handle_print req env hist).printed = false ∧
      (handle_print req env hist).history = hist) := by
  have hcti : create_task_image i s = (none, none) := by
    rcases hi with rfl | rfl <;> rcases hs with rfl | rfl <;> rfl
  refine ⟨hcti, ?_⟩
  intro hik hsel hn hd
  have hcond : ¬(pyStrip (req.name.getD "") = "" ∨
      pyStrip (req.due_date.getD "") = "") := by simp [hn, hd]
  unfold handle_print
  rw [if_neg hcond, hik, hsel, hcti]
  rw [if_pos ⟨rfl, rfl⟩]
  exact ⟨rfl, rfl, rfl, rfl, rfl⟩

/-- C6 witness: both backends unavailable on a valid request. -/
theorem render_failure_returns_500_w :
    (handle_print reqOk
      { imgkit := BackendOutcome.unavailable, selenium := BackendOutcome.crashed,
        transport := Transport.writeOk, historyAppendRaises := false }
      []).response.error = some renderFailMsg :=
  (render_failure_returns_500 BackendOutcome.unavailable BackendOutcome.crashed
    reqOk
    { imgkit := BackendOutcome.unavailable, selenium := BackendOutcome.crashed,
      transport := Transport.writeOk, historyAppendRaises := false }
    [] (Or.inl rfl) (Or.inr rfl)).2 rfl rfl (by decide) (by decide) |>.2.2.1

/-- C7 counterexample: the handler has no image-only mode. A request
carrying an `image_only` field and a readable attachment but no name and
no due date is rejected with 400 and success false instead of passing
validation. -/
theorem image_only_not_supported_cex :
    reqImageOnly.image_only = some "true" ∧
    reqImageOnly.attachment = some (AttachmentUpload.readable [7, 7, 7]) ∧
    (handle_print reqImageOnly envOk []).response.status = 400 ∧
    (handle_print reqImageOnly envOk []).response.success = false := by
  decide

/-- C7 (amended): POST /print ignores any `image_only` field entirely
(the result is identical whatever its value), and name and due date are
required in every request: when either is missing or empty the handler
returns the 400 validation response regardless of any attachment. -/
theorem image_only_ignored (req : PrintRequest) (env : Env)
    (hist : List HistoryEntry) (v : Option String) :
    handle_print { req with image_only := v } env hist
      = handle_print req env hist ∧
    ((req.name = none ∨ req.name = some "" ∨
        req.due_date = none ∨ req.due_date = some "") →
      handle_print req env hist = validationFailResult hist) := by
  constructor
  · rcases req with ⟨ct, n, p, dd, os, at0, io⟩; rfl
  · intro h
    apply handle_print_400
    rcases h with h | h | h | h
    · exact Or.inl (pyStrip_blank _ (Or.inl h))
    · exact Or.inl (pyStrip_blank _ (Or.inr h))
    · exact Or.inr (pyStrip_blank _ (Or.inl h))
    · exact Or.inr (pyStrip_blank _ (Or.inr h))

/-- C7 witness: the image-only style request from the counterexample,
with its flag rewritten and with its 400 outcome. -/
theorem image_only_ignored_w :
    handle_print { reqImageOnly with image_only := some "yes" } envOk []
      = handle_print reqImageOnly envOk [] ∧
    handle_print reqImageOnly envOk [] = validationFailResult [] :=
  ⟨(image_only_ignored reqImageOnly envOk [] (some "yes")).1,
   (image_only_ignored reqImageOnly envOk [] (some "yes")).2 (Or.inl rfl)⟩

/-- C8 counterexample: steps other than preview generation do raise
without the response reporting any failure. A form attachment whose read
raises is silently swallowed (the request still succeeds with no error),
and a raising history append is likewise swallowed while the response
still reports success. -/
theorem swallowed_exception_cex :
    (handle_print { reqOk with attachment := some AttachmentUpload.unreadable }
      envOk []).response.success = true ∧
    (handle_print { reqOk with attachment := some AttachmentUpload.unreadable }
      envOk []).response.status = 200 ∧
    (handle_print { reqOk with attachment := some AttachmentUpload.unreadable }
      envOk []).response.error = none ∧
    (handle_print reqOk { envOk with historyAppendRaises := true }
      []).response.success = true ∧
    (handle_print reqOk { envOk with historyAppendRaises := true }
      []).history = [] := by
  decide

/-- C8 (amended): render and print failures are surfaced synchronously
(a non-success response always carries an error message, a success
response is a clean 200), but besides preview generation two more
best-effort spots swallow exceptions: an unreadable form attachment
degrades to no attachment with the rest of the request unchanged, and a
raising history append leaves the deque untouched without altering the
HTTP response at all. -/
theorem best_effort_degradation (req : PrintRequest) (env : Env)
    (hist : List HistoryEntry) :
    handle_print { req with attachment := some AttachmentUpload.unreadable }
        env hist
      = handle_print { req with attachment := none } env hist ∧
    (handle_print req { env with historyAppendRaises := true } hist).history
      = hist ∧
    (handle_print req { env with historyAppendRaises := true } hist).response
      = (handle_print req env hist).response ∧
    ((handle_print req env hist).response.success = true →
      (handle_print req env hist).response.status = 200 ∧
      (handle_print req env hist).response.error = none) ∧
    ((handle_print req env hist).response.success = false →
      ∃ m, (handle_print req env hist).response.error = some m) := by
  refine ⟨handle_print_attachment_unreadable req env hist,
    handle_print_flagged_history req env hist,
    handle_print_flag_response req env hist true, ?_, ?_⟩
  · intro hs
    rcases handle_print_shape req env hist
      with ⟨hh, _⟩ | hh | ⟨e0, hh⟩ | ⟨ib, pv, hh⟩ <;> rw [hh] at hs ⊢
    · exact absurd hs (by simp [validationFailResult])
    · exact absurd hs (by simp [renderFailResult])
    · exact absurd hs (by simp [printFailResult])
    · exact ⟨rfl, rfl⟩
  · intro hs
    rcases handle_print_shape req env hist
      with ⟨hh, _⟩ | hh | ⟨e0, hh⟩ | ⟨ib, pv, hh⟩ <;> rw [hh] at hs ⊢
    · exact ⟨"Missing name or due date.", rfl⟩
    · exact ⟨renderFailMsg, rfl⟩
    · exact ⟨"Failed to print: " ++ e0, rfl⟩
    · exact absurd hs (by simp [successResult])

/-- C8 witness: a clean success response on the happy path. -/
theorem best_effort_degradation_w :
    (handle_print reqOk envOk []).response.status = 200 ∧
    (handle_print reqOk envOk []).response.error = none :=
  (best_effort_degradation reqOk envOk []).2.2.2.1 (by decide)

/-- C9: a priority field that is absent, unparseable as an integer, or an
integer outside 1..3 is coerced to 2 (Medium): the built task object, the
echoed response task and any newly appended history entry all carry
priority 2, and the request is never rejected for its priority (with
name and due date present the response is never 400). -/
theorem bad_priority_coerced_to_medium (req : PrintRequest) (env : Env)
    (hist : List HistoryEntry)
    (hbad : req.priority = PriorityField.absent ∨
      req.priority = PriorityField.notIntLike ∨
      ∃ n, req.priority = PriorityField.intLike n ∧ n ≠ 1 ∧ n ≠ 2 ∧ n ≠ 3) :
    parsePriority req.priority = 2 ∧
    (∀ t, (handle_print req env hist).taskBuilt = some t → t.priority = 2) ∧
    (∀ te, (handle_print req env hist).response.task = some te →
      te.priority = 2) ∧
    (∀ e, e ∈ (handle_print req env hist).history → e ∉ hist →
      e.priority = 2) ∧
    (pyStrip (req.name.getD "") ≠ "" → pyStrip (req.due_date.getD "") ≠ "" →
      (handle_print req env hist).response.status ≠ 400) := by
  have hp2 : parsePriority req.priority = 2 := by
    rcases hbad with h | h | ⟨n, h, h1, h2, h3⟩ <;>
      simp [parsePriority, h, *]
  refine ⟨hp2, ?_, ?_, ?_, ?_⟩
  · intro t ht
    rw [handle_print_taskBuilt req env hist t ht]
    exact hp2
  · intro te hte
    rcases handle_print_shape req env hist
      with ⟨hh, _⟩ | hh | ⟨e0, hh⟩ | ⟨ib, pv, hh⟩ <;> rw [hh] at hte
    · simp [validationFailResult] at hte
    · simp [renderFailResult] at hte
    · simp [printFailResult] at hte
    · simp [successResult] at hte
      rw [← hte]
      exact hp2
  · intro e he hne
    rcases handle_print_history_cases req env hist with hh | ⟨d, hh, hdp⟩
    · rw [hh] at he; exact absurd he hne
    · rw [hh] at he
      rcases List.mem_cons.mp (List.take_subset _ _ he) with rfl | hmem2
      · show d.priority = 2
        rw [hdp]; exact hp2
      · exact absurd hmem2 hne
  · intro hn hd
    rcases handle_print_shape req env hist
      with ⟨hh, hv⟩ | hh | ⟨e0, hh⟩ | ⟨ib, pv, hh⟩ <;> rw [hh]
    · rcases hv with hv | hv
      · exact absurd hv hn
      · exact absurd hv hd
    · simp [renderFailResult]
    · simp [printFailResult]
    · simp [successResult]

/-- C9 witness: the out-of-range priority 7 is coerced to 2. -/
theorem bad_priority_coerced_to_medium_w :
    parsePriority reqBadPriority.priority = 2 :=
  (bad_priority_coerced_to_medium reqBadPriority envOk []
    (Or.inr (Or.inr ⟨7, rfl, by decide, by decide, by decide⟩))).1

/-- C10: a JSON-bodied /print request always parses to no attachment
bytes, whatever its payload says, so any task object the handler builds
from it carries `attachment_bytes = None`. -/
theorem json_attachment_always_none (req : PrintRequest) (env : Env)
    (hist : List HistoryEntry) (hj : req.contentType = CType.json) :
    parsedAttachment req = none ∧
    ∀ t, (handle_print req env hist).taskBuilt = some t →
      t.attachment_bytes = none := by
  have hpa : parsedAttachment req = none := by simp [parsedAttachment, hj]
  refine ⟨hpa, ?_⟩
  intro t ht
  rw [handle_print_taskBuilt req env hist t ht]
  exact hpa

/-- C10 witness: a JSON request that names an attachment in its payload
still parses to no attachment bytes. -/
theorem json_attachment_always_none_w :
    reqJson.attachment = some (AttachmentUpload.readable [1, 2, 3]) ∧
    parsedAttachment reqJson = none :=
  ⟨rfl, (json_attachment_always_none reqJson envOk [] rfl).1⟩

end TaskCardGenerator
